import Mathlib

/-!
Shallow embedding of `src/backend/routers/announcements.py`: CRUD endpoints
for time-bounded announcements. The Mongo collections are modelled as lists
threaded through each operation; `datetime.fromisoformat` is modelled on the
canonical ISO-8601 grammar emitted by `datetime.isoformat`, keeping track of
offset-awareness; Python truthiness of the optional `start_date` string is
modelled explicitly. Each endpoint returns its response together with the
post-state of the store, so that write-free error paths are provable facts.
-/

namespace Announcements

/-! ## Python `datetime` model -/

/-- Numeric value of a decimal digit character. -/
def digitVal (c : Char) : Nat := c.toNat - 48

/-- Gregorian leap-year test, as in CPython's `datetime` module. -/
def isLeapYear (y : Nat) : Bool := (y % 4 == 0 && y % 100 != 0) || y % 400 == 0

/-- Number of days in a month, as validated by `datetime.fromisoformat`. -/
def daysInMonth (y mo : Nat) : Nat :=
  if mo == 2 then (if isLeapYear y then 29 else 28)
  else if mo == 4 || mo == 6 || mo == 9 || mo == 11 then 30
  else 31

/-- Order-embedding of a datetime field tuple `(y, mo, d, h, mi, s, us)` into
`Nat`. Python compares `datetime` values by their field tuples, so any
strictly monotone encoding of the tuple is faithful for comparisons. -/
def dtOrd (y mo d h mi s us : Nat) : Nat :=
  (((((y * 13 + mo) * 32 + d) * 24 + h) * 60 + mi) * 60 + s) * 1000000 + us

/-- A parsed Python `datetime`: its position in the field-tuple order and
whether it carries a UTC offset (`tzinfo`), i.e. is offset-aware.
Comparing an aware datetime with a naive one raises `TypeError` in Python,
so the `ord` of an aware value never reaches a successful comparison in the
code under study. -/
structure PyDateTime where
  ord : Nat
  aware : Bool
deriving Repr, DecidableEq

/-- Offset tail of an ISO time string: empty (naive) or `±HH:MM` with a
total offset below 24 hours (aware). -/
def parseOffset : List Char → Option Bool
  | [] => some false
  | [sg, h1, h2, ':', m1, m2] =>
    if (sg == '+' || sg == '-') && h1.isDigit && h2.isDigit && m1.isDigit && m2.isDigit
        && (digitVal h1 * 10 + digitVal h2) * 60 + (digitVal m1 * 10 + digitVal m2) < 24 * 60
    then some true else none
  | _ => none

/-- Optional fractional-second part (3 or 6 digits) followed by the optional
offset; yields the microsecond value and the awareness flag. -/
def parseFracOffset : List Char → Option (Nat × Bool)
  | '.' :: a :: b :: c :: rest =>
    if a.isDigit && b.isDigit && c.isDigit then
      let ms := digitVal a * 100 + digitVal b * 10 + digitVal c
      match rest with
      | d :: e :: f :: rest2 =>
        if d.isDigit && e.isDigit && f.isDigit then
          (parseOffset rest2).map (fun aw => (ms * 1000 + digitVal d * 100 + digitVal e * 10 + digitVal f, aw))
        else (parseOffset rest).map (fun aw => (ms * 1000, aw))
      | _ => (parseOffset rest).map (fun aw => (ms * 1000, aw))
    else none
  | rest => (parseOffset rest).map (fun aw => (0, aw))

/-- Time-of-day part `HH[:MM[:SS[.fff[fff]]]]` plus optional offset; yields
`(hour, minute, second, microsecond, aware)`. -/
def parseTime : List Char → Option (Nat × Nat × Nat × Nat × Bool)
  | h1 :: h2 :: ':' :: m1 :: m2 :: ':' :: s1 :: s2 :: rest =>
    if h1.isDigit && h2.isDigit && m1.isDigit && m2.isDigit && s1.isDigit && s2.isDigit then
      let h := digitVal h1 * 10 + digitVal h2
      let mi := digitVal m1 * 10 + digitVal m2
      let s := digitVal s1 * 10 + digitVal s2
      if h < 24 && mi < 60 && s < 60 then
        (parseFracOffset rest).map (fun p => (h, mi, s, p.1, p.2))
      else none
    else none
  | h1 :: h2 :: ':' :: m1 :: m2 :: rest =>
    if h1.isDigit && h2.isDigit && m1.isDigit && m2.isDigit then
      let h := digitVal h1 * 10 + digitVal h2
      let mi := digitVal m1 * 10 + digitVal m2
      if h < 24 && mi < 60 then
        (parseOffset rest).map (fun aw => (h, mi, 0, 0, aw))
      else none
    else none
  | [h1, h2] =>
    if h1.isDigit && h2.isDigit && digitVal h1 * 10 + digitVal h2 < 24 then
      some (digitVal h1 * 10 + digitVal h2, 0, 0, 0, false)
    else none
  | _ => none

/-- Model of CPython `datetime.fromisoformat` on the canonical grammar
`YYYY-MM-DD[<sep>HH[:MM[:SS[.fff[fff]]]][±HH:MM]]` (the output format of
`datetime.isoformat`, with any single separator character). Returns `none`
exactly when CPython raises `ValueError`. -/
def pyFromIsoformatList : List Char → Option PyDateTime
  | y1 :: y2 :: y3 :: y4 :: '-' :: mo1 :: mo2 :: '-' :: d1 :: d2 :: rest =>
    if y1.isDigit && y2.isDigit && y3.isDigit && y4.isDigit
        && mo1.isDigit && mo2.isDigit && d1.isDigit && d2.isDigit then
      let y := digitVal y1 * 1000 + digitVal y2 * 100 + digitVal y3 * 10 + digitVal y4
      let mo := digitVal mo1 * 10 + digitVal mo2
      let d := digitVal d1 * 10 + digitVal d2
      if 1 ≤ y && 1 ≤ mo && mo ≤ 12 && 1 ≤ d && d ≤ daysInMonth y mo then
        match rest with
        | [] => some ⟨dtOrd y mo d 0 0 0 0, false⟩
        | _sep :: timeRest =>
          (parseTime timeRest).map (fun t =>
            ⟨dtOrd y mo d t.1 t.2.1 t.2.2.1 t.2.2.2.1, t.2.2.2.2⟩)
      else none
    else none
  | _ => none

/-- Model of `datetime.fromisoformat` on a string. -/
def pyFromIsoformat (s : String) : Option PyDateTime := pyFromIsoformatList s.data

/-- Replace every occurrence of `'Z'` by `"+00:00"` in a character list. -/
def replaceZList : List Char → List Char
  | [] => []
  | c :: cs =>
    if c = 'Z' then '+' :: '0' :: '0' :: ':' :: '0' :: '0' :: replaceZList cs
    else c :: replaceZList cs

/-- The source's `s.replace("Z", "+00:00")` preprocessing (the pattern is a
single character, so replacement is character-wise). -/
def pyReplaceZ (s : String) : String := String.mk (replaceZList s.data)

/-- Python truthiness of an optional string parameter: `None` and the empty
string are falsy, every other string is truthy (the `if start_date:` tests). -/
def pyTruthy : Option String → Bool
  | none => false
  | some s => !(s == "")

/-! ## Clock -/

/-- The current UTC wall-clock instant, as the field tuple produced by
`datetime.utcnow()` (always offset-naive). -/
structure Clock where
  year : Nat
  month : Nat
  day : Nat
  hour : Nat
  minute : Nat
  second : Nat
  usec : Nat
deriving Repr, DecidableEq

/-- Zero-padded two-digit decimal rendering. -/
def pad2 (n : Nat) : String := if n < 10 then "0" ++ toString n else toString n

/-- Zero-padded four-digit decimal rendering. -/
def pad4 (n : Nat) : String :=
  if n < 10 then "000" ++ toString n
  else if n < 100 then "00" ++ toString n
  else if n < 1000 then "0" ++ toString n
  else toString n

/-- Zero-padded six-digit decimal rendering. -/
def pad6 (n : Nat) : String :=
  if n < 10 then "00000" ++ toString n
  else if n < 100 then "0000" ++ toString n
  else if n < 1000 then "000" ++ toString n
  else if n < 10000 then "00" ++ toString n
  else if n < 100000 then "0" ++ toString n
  else toString n

/-- The `datetime.isoformat()` output of the clock's naive value: the fractional part is
emitted only when the microsecond field is non-zero. -/
def Clock.isoformat (c : Clock) : String :=
  pad4 c.year ++ "-" ++ pad2 c.month ++ "-" ++ pad2 c.day ++ "T"
    ++ pad2 c.hour ++ ":" ++ pad2 c.minute ++ ":" ++ pad2 c.second
    ++ (if c.usec == 0 then "" else "." ++ pad6 c.usec)

/-- The source's `datetime.utcnow().isoformat() + "Z"` timestamp string. -/
def Clock.currentTime (c : Clock) : String := c.isoformat ++ "Z"

/-- The source's `datetime.utcnow()` value: offset-naive. -/
def Clock.utcnow (c : Clock) : PyDateTime :=
  ⟨dtOrd c.year c.month c.day c.hour c.minute c.second c.usec, false⟩

/-! ## Data model and store -/

/-- A stored announcement document. `id` is the store-assigned `_id`;
`start_date` is present only when the document carries the field. -/
structure Announcement where
  id : Nat
  message : String
  expiration_date : String
  start_date : Option String
  created_by : String
  created_at : String
deriving Repr, DecidableEq

/-- An announcement as returned over the wire: `_id` rendered as a string. -/
structure AnnouncementOut where
  id : String
  message : String
  expiration_date : String
  start_date : Option String
  created_by : String
  created_at : String
deriving Repr, DecidableEq

/-- Database state: the announcements collection (in natural order), the
teacher directory (usernames), and the next store-assigned id. -/
structure DB where
  announcements : List Announcement
  teachers : List String
  nextId : Nat
deriving Repr, DecidableEq

/-- Hexadecimal digit test (both cases), as accepted by `bson.ObjectId`. -/
def isHexDigit (c : Char) : Bool :=
  c.isDigit || ('a' ≤ c && c ≤ 'f') || ('A' ≤ c && c ≤ 'F')

/-- Value of a hexadecimal digit character. -/
def hexVal (c : Char) : Nat :=
  if c.isDigit then c.toNat - 48
  else if 'a' ≤ c && c ≤ 'f' then c.toNat - 87
  else c.toNat - 55

/-- Model of `bson.ObjectId(s)`: succeeds exactly on 24-character hexadecimal strings,
yielding the store id value; raises (here `none`) otherwise. -/
def objectIdOfString (s : String) : Option Nat :=
  if s.length == 24 && s.data.all isHexDigit then
    some (s.data.foldl (fun acc c => acc * 16 + hexVal c) 0)
  else none

/-- Lowercase hexadecimal digit character. -/
def hexChar (n : Nat) : Char :=
  if n < 10 then Char.ofNat (48 + n) else Char.ofNat (87 + n)

/-- Model of `str(ObjectId)`: the id value rendered as 24 lowercase hex characters. -/
def objectIdRender (n : Nat) : String :=
  String.mk ((List.range 24).map (fun i => hexChar (n / 16 ^ (23 - i) % 16)))

/-- The store operation `find_one({"_id": oid})`: the first document with the given id. -/
def findAnn (l : List Announcement) (oid : Nat) : Option Announcement :=
  l.find? (fun r => r.id == oid)

/-- The store operation `update_one({"_id": oid}, ...)`: rewrite the first matching document. -/
def updateFirst (l : List Announcement) (oid : Nat) (f : Announcement → Announcement) :
    List Announcement :=
  match l with
  | [] => []
  | r :: rs => if r.id == oid then f r :: rs else r :: updateFirst rs oid f

/-- The store operation `delete_one({"_id": oid})`: remove the first matching document, returning
the remaining collection and the deleted count. -/
def deleteFirst (l : List Announcement) (oid : Nat) : List Announcement × Nat :=
  match l with
  | [] => ([], 0)
  | r :: rs =>
    if r.id == oid then (rs, 1)
    else
      let p := deleteFirst rs oid
      (r :: p.1, p.2)

/-- JSON rendering of a stored document (`_id` converted to a string). -/
def render (a : Announcement) : AnnouncementOut :=
  ⟨objectIdRender a.id, a.message, a.expiration_date, a.start_date, a.created_by, a.created_at⟩

/-! ## Errors -/

/-- Client-visible outcomes of the endpoints. The first six are the
`HTTPException`s the source raises; `uncaughtTypeError` stands for a Python
`TypeError` escaping the handler (an aware/naive datetime comparison, or a
`None` subscript), surfacing as a 500 outside the error taxonomy. -/
inductive ApiError where
  | unauthorized
  | invalidAnnouncementId
  | announcementNotFound
  | invalidExpirationFormat
  | invalidStartFormat
  | expirationNotFuture
  | uncaughtTypeError
deriving Repr, DecidableEq

/-- The error taxonomy of the specification: Unauthorized, InvalidId,
NotFound, InvalidFormat (expiration or start date), ValidationError. -/
def specTaxonomy : List ApiError :=
  [.unauthorized, .invalidAnnouncementId, .announcementNotFound,
   .invalidExpirationFormat, .invalidStartFormat, .expirationNotFuture]

instance {ε α : Type} [DecidableEq ε] [DecidableEq α] : DecidableEq (Except ε α) := fun x y =>
  match x, y with
  | .ok a, .ok b =>
    if h : a = b then Decidable.isTrue (congrArg Except.ok h)
    else Decidable.isFalse (fun he => h (Except.ok.inj he))
  | .error a, .error b =>
    if h : a = b then Decidable.isTrue (congrArg Except.error h)
    else Decidable.isFalse (fun he => h (Except.error.inj he))
  | .ok _, .error _ => Decidable.isFalse (fun he => Except.noConfusion he)
  | .error _, .ok _ => Decidable.isFalse (fun he => Except.noConfusion he)

/-! ## Endpoints -/

/-- Lexicographic (bytewise) order on character lists, the string collation
the document store uses for `$gte`/`$lte` and for sorting. -/
def charListLe : List Char → List Char → Bool
  | [], _ => true
  | _ :: _, [] => false
  | a :: as, b :: bs => if a = b then charListLe as bs else decide (a < b)

/-- Lexicographic string comparison `a <= b`. -/
def strLe (a b : String) : Bool := charListLe a.data b.data

/-- Sort relation of `.sort("created_at", -1)`: descending `created_at`. -/
def createdAtDesc (a b : Announcement) : Prop := strLe b.created_at a.created_at = true

instance : DecidableRel createdAtDesc := fun a b =>
  inferInstanceAs (Decidable (strLe b.created_at a.created_at = true))

/-- The Mongo filter of `GET /announcements/active`:
`expiration_date >= current_time` and (`start_date` absent or
`start_date <= current_time`), with string (lexicographic) comparisons. -/
def isActive (currentTime : String) (a : Announcement) : Bool :=
  strLe currentTime a.expiration_date &&
    (match a.start_date with
     | none => true
     | some s => strLe s currentTime)

/-- Endpoint `GET /announcements/active`: no identity check; filter by the activity
window at `utcnow().isoformat() + "Z"`, sort by `created_at` descending,
render ids as strings. -/
def get_active_announcements (db : DB) (clock : Clock) : List AnnouncementOut :=
  let current_time := clock.currentTime
  ((List.insertionSort createdAtDesc (db.announcements.filter (isActive current_time))).map render)

/-- Endpoint `GET /announcements/all`: identity check, then every announcement sorted
by `created_at` descending. -/
def get_all_announcements (db : DB) (username : String) :
    Except ApiError (List AnnouncementOut) :=
  if db.teachers.contains username then
    .ok ((List.insertionSort createdAtDesc db.announcements).map render)
  else .error .unauthorized

/-- Endpoint `POST /announcements/`: identity check; parse expiration (after `Z`
replacement) and compare with naive `utcnow()` — an aware parse raises an
uncaught `TypeError`; reject non-future expirations; parse a truthy
`start_date`; insert the document. Returns the response with the post-state
of the store. -/
def create_announcement (db : DB) (clock : Clock)
    (message expiration_date username : String) (start_date : Option String) :
    Except ApiError AnnouncementOut × DB :=
  if !db.teachers.contains username then (.error .unauthorized, db)
  else
    match pyFromIsoformat (pyReplaceZ expiration_date) with
    | none => (.error .invalidExpirationFormat, db)
    | some expiration_dt =>
      if expiration_dt.aware then (.error .uncaughtTypeError, db)
      else if expiration_dt.ord ≤ (Clock.utcnow clock).ord then
        (.error .expirationNotFuture, db)
      else if pyTruthy start_date
          && (pyFromIsoformat (pyReplaceZ (start_date.getD ""))).isNone then
        (.error .invalidStartFormat, db)
      else
        let ann : Announcement :=
          { id := db.nextId, message, expiration_date,
            start_date := if pyTruthy start_date then start_date else none,
            created_by := username, created_at := clock.currentTime }
        (.ok (render ann),
         { db with announcements := db.announcements ++ [ann], nextId := db.nextId + 1 })

/-- Endpoint `PUT /announcements/{id}`: identity check; `ObjectId` parse; existence
check; expiration and start-date validation as in create; then a `$unset` of
`start_date` when the parameter is falsy, followed by a `$set` of the new
fields; re-read and return the updated document. -/
def update_announcement (db : DB) (clock : Clock)
    (announcement_id message expiration_date username : String)
    (start_date : Option String) : Except ApiError AnnouncementOut × DB :=
  if !db.teachers.contains username then (.error .unauthorized, db)
  else
    match objectIdOfString announcement_id with
    | none => (.error .invalidAnnouncementId, db)
    | some obj_id =>
      match findAnn db.announcements obj_id with
      | none => (.error .announcementNotFound, db)
      | some _existing =>
        match pyFromIsoformat (pyReplaceZ expiration_date) with
        | none => (.error .invalidExpirationFormat, db)
        | some expiration_dt =>
          if expiration_dt.aware then (.error .uncaughtTypeError, db)
          else if expiration_dt.ord ≤ (Clock.utcnow clock).ord then
            (.error .expirationNotFuture, db)
          else if pyTruthy start_date
              && (pyFromIsoformat (pyReplaceZ (start_date.getD ""))).isNone then
            (.error .invalidStartFormat, db)
          else
            let db1 :=
              if pyTruthy start_date then db
              else { db with announcements :=
                       (updateFirst db.announcements obj_id
                         (fun r => { r with start_date := none })) }
            let db2 :=
              { db1 with announcements :=
                  (updateFirst db1.announcements obj_id (fun r =>
                    { r with
                      message := message,
                      expiration_date := expiration_date,
                      start_date := if pyTruthy start_date then start_date else r.start_date })) }
            match findAnn db2.announcements obj_id with
            | some updated => (.ok (render updated), db2)
            | none => (.error .uncaughtTypeError, db2)

/-- Endpoint `DELETE /announcements/{id}`: identity check; `ObjectId` parse; delete
and report NotFound when nothing was removed, else a confirmation message. -/
def delete_announcement (db : DB) (announcement_id username : String) :
    Except ApiError String × DB :=
  if !db.teachers.contains username then (.error .unauthorized, db)
  else
    match objectIdOfString announcement_id with
    | none => (.error .invalidAnnouncementId, db)
    | some obj_id =>
      let p := deleteFirst db.announcements obj_id
      let db1 := { db with announcements := p.1 }
      if p.2 == 0 then (.error .announcementNotFound, db1)
      else (.ok "Announcement deleted successfully", db1)

/-! ## Order and store lemmas -/

theorem charListLe_total : ∀ (a b : List Char), charListLe a b = true ∨ charListLe b a = true
  | [], _ => .inl rfl
  | _ :: _, [] => .inr rfl
  | a :: as, b :: bs => by
    by_cases hab : a = b
    · subst hab
      simpa [charListLe] using charListLe_total as bs
    · rcases lt_or_gt_of_ne hab with h | h
      · left; simp [charListLe, hab, h]
      · right; simp [charListLe, Ne.symm hab, h]

theorem charListLe_trans :
    ∀ {a b c : List Char}, charListLe a b = true → charListLe b c = true → charListLe a c = true
  | [], _, _, _, _ => rfl
  | _ :: _, [], _, h1, _ => by simp [charListLe] at h1
  | _ :: _, _ :: _, [], _, h2 => by simp [charListLe] at h2
  | a :: as, b :: bs, c :: cs, h1, h2 => by
    by_cases hab : a = b <;> by_cases hbc : b = c
    · subst hab; subst hbc
      simp only [charListLe, if_pos rfl] at h1 h2 ⊢
      exact charListLe_trans h1 h2
    · subst hab
      simpa [charListLe, hbc] using h2
    · subst hbc
      simpa [charListLe, hab] using h1
    · simp only [charListLe, if_neg hab, if_neg hbc, decide_eq_true_eq] at h1 h2
      have hac : a < c := lt_trans h1 h2
      simp [charListLe, ne_of_lt hac, hac]

theorem strLe_total (a b : String) : strLe a b = true ∨ strLe b a = true :=
  charListLe_total a.data b.data

theorem strLe_trans {a b c : String} (h1 : strLe a b = true) (h2 : strLe b c = true) :
    strLe a c = true :=
  charListLe_trans h1 h2

instance : IsTotal Announcement createdAtDesc :=
  ⟨fun a b => (strLe_total b.created_at a.created_at).imp id id⟩

instance : IsTrans Announcement createdAtDesc :=
  ⟨fun _ _ _ h1 h2 => strLe_trans h2 h1⟩

theorem isActive_iff (t : String) (a : Announcement) :
    isActive t a = true ↔
      strLe t a.expiration_date = true ∧
        (a.start_date = none ∨ ∃ s, a.start_date = some s ∧ strLe s t = true) := by
  cases h : a.start_date <;> simp [isActive, h]

theorem findAnn_cons (r : Announcement) (rs : List Announcement) (oid : Nat) :
    findAnn (r :: rs) oid = if r.id = oid then some r else findAnn rs oid := by
  by_cases h : r.id = oid
  · simp [findAnn, List.find?, h]
  · simp [findAnn, List.find?, h, beq_eq_false_iff_ne.mpr h]

theorem updateFirst_cons (r : Announcement) (rs : List Announcement) (oid : Nat)
    (f : Announcement → Announcement) :
    updateFirst (r :: rs) oid f = if r.id = oid then f r :: rs else r :: updateFirst rs oid f := by
  by_cases h : r.id = oid <;> simp [updateFirst, h]

theorem deleteFirst_cons (r : Announcement) (rs : List Announcement) (oid : Nat) :
    deleteFirst (r :: rs) oid =
      if r.id = oid then (rs, 1)
      else ((r :: (deleteFirst rs oid).1, (deleteFirst rs oid).2)) := by
  by_cases h : r.id = oid <;> simp [deleteFirst, h]

theorem findAnn_updateFirst (l : List Announcement) (oid : Nat) (f : Announcement → Announcement)
    (hf : ∀ r, (f r).id = r.id) :
    findAnn (updateFirst l oid f) oid = (findAnn l oid).map f := by
  induction l with
  | nil => rfl
  | cons r rs ih =>
    rw [updateFirst_cons]
    by_cases h : r.id = oid
    · rw [if_pos h, findAnn_cons, findAnn_cons, if_pos h, if_pos (by rw [hf r]; exact h)]
      rfl
    · rw [if_neg h, findAnn_cons, findAnn_cons, if_neg h, if_neg h, ih]

theorem deleteFirst_of_find_none (l : List Announcement) (oid : Nat)
    (h : findAnn l oid = none) : deleteFirst l oid = (l, 0) := by
  induction l with
  | nil => rfl
  | cons r rs ih =>
    rw [findAnn_cons] at h
    by_cases hr : r.id = oid
    · rw [if_pos hr] at h; cases h
    · rw [if_neg hr] at h
      rw [deleteFirst_cons, if_neg hr, ih h]

theorem deleteFirst_of_find_some (l : List Announcement) (oid : Nat) (r : Announcement)
    (h : findAnn l oid = some r) :
    ∃ l1 l2, l = l1 ++ r :: l2 ∧ (∀ x ∈ l1, x.id ≠ oid) ∧ r.id = oid ∧
      deleteFirst l oid = (l1 ++ l2, 1) := by
  induction l with
  | nil => simp [findAnn] at h
  | cons a as ih =>
    rw [findAnn_cons] at h
    by_cases ha : a.id = oid
    · rw [if_pos ha] at h
      cases h
      exact ⟨[], as, rfl, by simp, ha, by rw [deleteFirst_cons, if_pos ha]; simp⟩
    · rw [if_neg ha] at h
      obtain ⟨l1, l2, he, hnm, hr, hd⟩ := ih h
      refine ⟨a :: l1, l2, by simp [he], ?_, hr, ?_⟩
      · intro x hx
        rcases List.mem_cons.mp hx with hx | hx
        · subst hx; exact ha
        · exact hnm x hx
      · rw [deleteFirst_cons, if_neg ha, hd]; simp

/-! ## Endpoint inversion lemmas -/

theorem create_error_state (db : DB) (clock : Clock) (msg exp user : String)
    (sd : Option String) (e : ApiError) (db' : DB)
    (h : create_announcement db clock msg exp user sd = (.error e, db')) : db' = db := by
  simp only [create_announcement] at h
  split at h
  · exact ((Prod.mk.injEq _ _ _ _).mp h).2.symm
  split at h
  · exact ((Prod.mk.injEq _ _ _ _).mp h).2.symm
  split at h
  · exact ((Prod.mk.injEq _ _ _ _).mp h).2.symm
  split at h
  · exact ((Prod.mk.injEq _ _ _ _).mp h).2.symm
  split at h
  · exact ((Prod.mk.injEq _ _ _ _).mp h).2.symm
  · exact absurd ((Prod.mk.injEq _ _ _ _).mp h).1 (by simp)

theorem create_ok_inv (db : DB) (clock : Clock) (msg exp user : String)
    (sd : Option String) (out : AnnouncementOut) (db' : DB)
    (h : create_announcement db clock msg exp user sd = (.ok out, db')) :
    out = render ⟨db.nextId, msg, exp, if pyTruthy sd then sd else none, user, clock.currentTime⟩ ∧
    db'.announcements = db.announcements
      ++ [⟨db.nextId, msg, exp, if pyTruthy sd then sd else none, user, clock.currentTime⟩] ∧
    db'.teachers = db.teachers ∧ db'.nextId = db.nextId + 1 := by
  simp only [create_announcement] at h
  split at h
  · exact absurd ((Prod.mk.injEq _ _ _ _).mp h).1 (by simp)
  split at h
  · exact absurd ((Prod.mk.injEq _ _ _ _).mp h).1 (by simp)
  split at h
  · exact absurd ((Prod.mk.injEq _ _ _ _).mp h).1 (by simp)
  split at h
  · exact absurd ((Prod.mk.injEq _ _ _ _).mp h).1 (by simp)
  split at h
  · exact absurd ((Prod.mk.injEq _ _ _ _).mp h).1 (by simp)
  · obtain ⟨h1, h2⟩ := (Prod.mk.injEq _ _ _ _).mp h
    refine ⟨(Except.ok.inj h1).symm, ?_, ?_, ?_⟩ <;> simp [← h2]

theorem update_error_state (db : DB) (clock : Clock) (id msg exp user : String)
    (sd : Option String) (e : ApiError) (db' : DB)
    (h : update_announcement db clock id msg exp user sd = (.error e, db')) : db' = db := by
  cases htr : pyTruthy sd
  · simp only [update_announcement, htr, Bool.false_eq_true, Bool.false_and, if_false] at h
    split at h
    · exact ((Prod.mk.injEq _ _ _ _).mp h).2.symm
    split at h
    · exact ((Prod.mk.injEq _ _ _ _).mp h).2.symm
    split at h
    · exact ((Prod.mk.injEq _ _ _ _).mp h).2.symm
    split at h
    · exact ((Prod.mk.injEq _ _ _ _).mp h).2.symm
    split at h
    · exact ((Prod.mk.injEq _ _ _ _).mp h).2.symm
    split at h
    · exact ((Prod.mk.injEq _ _ _ _).mp h).2.symm
    split at h
    · exact absurd ((Prod.mk.injEq _ _ _ _).mp h).1 (by simp)
    · rename_i x3 obj_id hoid x2 existing hfind x1 dt hdt haw hord x0 updNone
      rw [findAnn_updateFirst _ _
            (fun r => ⟨r.id, msg, exp, r.start_date, r.created_by, r.created_at⟩)
            (fun r => rfl),
          findAnn_updateFirst _ _
            (fun r => ⟨r.id, r.message, r.expiration_date, none, r.created_by, r.created_at⟩)
            (fun r => rfl),
          hfind] at updNone
      simp at updNone
  · simp only [update_announcement, htr, Bool.true_and, if_true] at h
    split at h
    · exact ((Prod.mk.injEq _ _ _ _).mp h).2.symm
    split at h
    · exact ((Prod.mk.injEq _ _ _ _).mp h).2.symm
    split at h
    · exact ((Prod.mk.injEq _ _ _ _).mp h).2.symm
    split at h
    · exact ((Prod.mk.injEq _ _ _ _).mp h).2.symm
    split at h
    · exact ((Prod.mk.injEq _ _ _ _).mp h).2.symm
    split at h
    · exact ((Prod.mk.injEq _ _ _ _).mp h).2.symm
    split at h
    · exact ((Prod.mk.injEq _ _ _ _).mp h).2.symm
    split at h
    · exact absurd ((Prod.mk.injEq _ _ _ _).mp h).1 (by simp)
    · rename_i x3 obj_id hoid x2 existing hfind x1 dt hdt haw hord hsd x0 updNone
      rw [findAnn_updateFirst _ _
            (fun r => ⟨r.id, msg, exp, sd, r.created_by, r.created_at⟩)
            (fun r => rfl),
          hfind] at updNone
      simp at updNone

theorem update_ok_inv (db : DB) (clock : Clock) (id msg exp user : String)
    (sd : Option String) (out : AnnouncementOut) (db' : DB)
    (h : update_announcement db clock id msg exp user sd = (.ok out, db')) :
    ∃ oid old, objectIdOfString id = some oid ∧
      findAnn db.announcements oid = some old ∧
      db'.teachers = db.teachers ∧ db'.nextId = db.nextId ∧
      findAnn db'.announcements oid = some
        ⟨old.id, msg, exp, if pyTruthy sd then sd else none, old.created_by, old.created_at⟩ ∧
      out = render
        ⟨old.id, msg, exp, if pyTruthy sd then sd else none, old.created_by, old.created_at⟩ := by
  cases htr : pyTruthy sd
  · simp only [update_announcement, htr, Bool.false_eq_true, Bool.false_and, if_false] at h
    split at h
    · exact absurd ((Prod.mk.injEq _ _ _ _).mp h).1 (by simp)
    split at h
    · exact absurd ((Prod.mk.injEq _ _ _ _).mp h).1 (by simp)
    split at h
    · exact absurd ((Prod.mk.injEq _ _ _ _).mp h).1 (by simp)
    split at h
    · exact absurd ((Prod.mk.injEq _ _ _ _).mp h).1 (by simp)
    split at h
    · exact absurd ((Prod.mk.injEq _ _ _ _).mp h).1 (by simp)
    split at h
    · exact absurd ((Prod.mk.injEq _ _ _ _).mp h).1 (by simp)
    split at h
    · rename_i x3 obj_id hoid x2 existing hfind x1 dt hdt haw hord x0 updated hupd
      obtain ⟨h1, h2⟩ := (Prod.mk.injEq _ _ _ _).mp h
      have h1' : render updated = out := Except.ok.inj h1
      refine ⟨obj_id, existing, hoid, hfind, by rw [← h2], by rw [← h2], ?_, ?_⟩
      · rw [← h2]
        show findAnn (updateFirst _ _ _) obj_id = _
        rw [findAnn_updateFirst _ _
              (fun r => ⟨r.id, msg, exp, r.start_date, r.created_by, r.created_at⟩)
              (fun r => rfl),
            findAnn_updateFirst _ _
              (fun r => ⟨r.id, r.message, r.expiration_date, none, r.created_by, r.created_at⟩)
              (fun r => rfl),
            hfind]
        simp [htr]
      · have h3 : (⟨existing.id, msg, exp, none, existing.created_by,
            existing.created_at⟩ : Announcement) = updated := by
          rw [findAnn_updateFirst _ _
                (fun r => ⟨r.id, msg, exp, r.start_date, r.created_by, r.created_at⟩)
                (fun r => rfl),
              findAnn_updateFirst _ _
                (fun r => ⟨r.id, r.message, r.expiration_date, none, r.created_by, r.created_at⟩)
                (fun r => rfl),
              hfind] at hupd
          exact Option.some.inj hupd
        rw [← h1', ← h3]
        simp [htr, render]
    · exact absurd ((Prod.mk.injEq _ _ _ _).mp h).1 (by simp)
  · simp only [update_announcement, htr, Bool.true_and, if_true] at h
    split at h
    · exact absurd ((Prod.mk.injEq _ _ _ _).mp h).1 (by simp)
    split at h
    · exact absurd ((Prod.mk.injEq _ _ _ _).mp h).1 (by simp)
    split at h
    · exact absurd ((Prod.mk.injEq _ _ _ _).mp h).1 (by simp)
    split at h
    · exact absurd ((Prod.mk.injEq _ _ _ _).mp h).1 (by simp)
    split at h
    · exact absurd ((Prod.mk.injEq _ _ _ _).mp h).1 (by simp)
    split at h
    · exact absurd ((Prod.mk.injEq _ _ _ _).mp h).1 (by simp)
    split at h
    · exact absurd ((Prod.mk.injEq _ _ _ _).mp h).1 (by simp)
    split at h
    · rename_i x3 obj_id hoid x2 existing hfind x1 dt hdt haw hord hsd x0 updated hupd
      obtain ⟨h1, h2⟩ := (Prod.mk.injEq _ _ _ _).mp h
      have h1' : render updated = out := Except.ok.inj h1
      refine ⟨obj_id, existing, hoid, hfind, by rw [← h2], by rw [← h2], ?_, ?_⟩
      · rw [← h2]
        show findAnn (updateFirst _ _ _) obj_id = _
        rw [findAnn_updateFirst _ _
              (fun r => ⟨r.id, msg, exp, sd, r.created_by, r.created_at⟩)
              (fun r => rfl),
            hfind]
        simp [htr]
      · have h3 : (⟨existing.id, msg, exp, sd, existing.created_by,
            existing.created_at⟩ : Announcement) = updated := by
          rw [findAnn_updateFirst _ _
                (fun r => ⟨r.id, msg, exp, sd, r.created_by, r.created_at⟩)
                (fun r => rfl),
              hfind] at hupd
          exact Option.some.inj hupd
        rw [← h1', ← h3]
        simp [htr, render]
    · exact absurd ((Prod.mk.injEq _ _ _ _).mp h).1 (by simp)

/-! ## Claim theorems -/

/-! ## Example data used by the witnesses -/

def exClock : Clock := ⟨2026, 10, 12, 9, 30, 0, 0⟩

def exAnn : Announcement :=
  ⟨0, "m", "2030-01-01T00:00:00Z", some "2025-01-01T00:00:00Z", "teacher", "2025-06-01T00:00:00Z"⟩

def exAnn2 : Announcement :=
  ⟨1, "n", "2030-01-01T00:00:00Z", none, "teacher", "2025-07-01T00:00:00Z"⟩

def exDB : DB := ⟨[exAnn, exAnn2], ["teacher"], 2⟩

/-- C1: an announcement is in the active listing iff it is stored, its
`expiration_date` is at or after the current-time string, and its
`start_date` is absent or at or before the current-time string; the teacher
directory plays no role in this endpoint. -/
theorem active_listing_iff (db : DB) (clock : Clock) (o : AnnouncementOut) :
    (o ∈ get_active_announcements db clock ↔
      ∃ a, a ∈ db.announcements ∧ render a = o ∧
        strLe clock.currentTime a.expiration_date = true ∧
        (a.start_date = none ∨ ∃ s, a.start_date = some s ∧ strLe s clock.currentTime = true)) ∧
    (∀ ts : List String,
      get_active_announcements ⟨db.announcements, ts, db.nextId⟩ clock
        = get_active_announcements db clock) := by
  constructor
  · simp only [get_active_announcements, List.mem_map, List.mem_insertionSort, List.mem_filter]
    constructor
    · rintro ⟨a, ⟨ha, hact⟩, rfl⟩
      obtain ⟨h1, h2⟩ := (isActive_iff _ a).mp hact
      exact ⟨a, ha, rfl, h1, h2⟩
    · rintro ⟨a, ha, rfl, h1, h2⟩
      exact ⟨a, ⟨ha, (isActive_iff _ a).mpr ⟨h1, h2⟩⟩, rfl⟩
  · intro ts; rfl

/-- C8: both listings are sorted by `created_at` descending (ties allowed in
either order). -/
theorem listings_sorted_desc (db : DB) (clock : Clock) (username : String) :
    List.Pairwise (fun x y : AnnouncementOut => strLe y.created_at x.created_at = true)
      (get_active_announcements db clock) ∧
    (∀ l, get_all_announcements db username = .ok l →
      List.Pairwise (fun x y : AnnouncementOut => strLe y.created_at x.created_at = true) l) := by
  constructor
  · exact (List.sorted_insertionSort createdAtDesc _).map render (fun a b hr => hr)
  · intro l hl
    rw [get_all_announcements] at hl
    split at hl
    · cases hl
      exact (List.sorted_insertionSort createdAtDesc _).map render (fun a b hr => hr)
    · cases hl

/-- C5: every authenticated operation called with a username absent from the
teacher directory fails with Unauthorized, whatever the other inputs. -/
theorem absent_user_unauthorized (db : DB) (clock : Clock) (id msg exp : String)
    (sd : Option String) (user : String) (h : user ∉ db.teachers) :
    get_all_announcements db user = .error .unauthorized ∧
    (create_announcement db clock msg exp user sd).1 = .error .unauthorized ∧
    (update_announcement db clock id msg exp user sd).1 = .error .unauthorized ∧
    (delete_announcement db id user).1 = .error .unauthorized := by
  refine ⟨?_, ?_, ?_, ?_⟩ <;>
    simp [get_all_announcements, create_announcement, update_announcement,
      delete_announcement, h]

theorem absent_user_unauthorized_witness :
    get_all_announcements exDB "nobody" = .error .unauthorized ∧
    (create_announcement exDB exClock "m" "2030-01-01T00:00:00" "nobody" none).1
      = .error .unauthorized ∧
    (update_announcement exDB exClock "000000000000000000000000" "m" "2030-01-01T00:00:00"
      "nobody" none).1 = .error .unauthorized ∧
    (delete_announcement exDB "000000000000000000000000" "nobody").1 = .error .unauthorized :=
  absent_user_unauthorized exDB exClock "000000000000000000000000" "m" "2030-01-01T00:00:00"
    none "nobody" (by decide)

theorem listings_sorted_desc_witness :
    List.Pairwise (fun x y : AnnouncementOut => strLe y.created_at x.created_at = true)
      (get_active_announcements exDB exClock) ∧
    List.Pairwise (fun x y : AnnouncementOut => strLe y.created_at x.created_at = true)
      [render exAnn2, render exAnn] :=
  ⟨(listings_sorted_desc exDB exClock "teacher").1,
   (listings_sorted_desc exDB exClock "teacher").2 [render exAnn2, render exAnn] (by decide)⟩


/-- C3: when the expiration string (after `Z` substitution) parses to an
offset-aware datetime, the comparison with the naive `utcnow()` raises a
`TypeError` that the `except ValueError` handler does not catch, so both
create and update (past their earlier checks) end with an error outside the
specification's taxonomy. -/
theorem aware_offset_uncaught_typeerror (db : DB) (clock : Clock) (id msg exp user : String)
    (sd : Option String) (dt : PyDateTime) (hauth : user ∈ db.teachers)
    (hdt : pyFromIsoformat (pyReplaceZ exp) = some dt) (haw : dt.aware = true) :
    (create_announcement db clock msg exp user sd).1 = .error .uncaughtTypeError ∧
    (∀ oid rec, objectIdOfString id = some oid → findAnn db.announcements oid = some rec →
      (update_announcement db clock id msg exp user sd).1 = .error .uncaughtTypeError) ∧
    ApiError.uncaughtTypeError ∉ specTaxonomy := by
  refine ⟨?_, ?_, by decide⟩
  · simp [create_announcement, hauth, hdt, haw]
  · intro oid rec hoid hrec
    simp [update_announcement, hauth, hoid, hrec, hdt, haw]

theorem aware_offset_uncaught_typeerror_witness :
    (create_announcement exDB exClock "Reminder" "2030-01-01T00:00:00Z" "teacher" none).1
      = .error .uncaughtTypeError ∧
    (update_announcement exDB exClock "000000000000000000000000" "Reminder"
      "2030-01-01T00:00:00Z" "teacher" none).1 = .error .uncaughtTypeError :=
  have h := aware_offset_uncaught_typeerror exDB exClock "000000000000000000000000" "Reminder"
    "2030-01-01T00:00:00Z" "teacher" none ⟨dtOrd 2030 1 1 0 0 0 0, true⟩ (by decide)
    (by decide) rfl
  ⟨h.1, h.2.1 0 exAnn (by decide) (by decide)⟩

/-- C2 (code-bug evidence): with the specification's `Z`-suffixed wire
format, the parse is offset-aware, so an authorized create with a strictly
future expiration ends in the uncaught TypeError instead of succeeding, and
one with a past expiration ends there instead of in ValidationError. -/
theorem zsuffix_expiration_typeerror_evidence :
    pyFromIsoformat (pyReplaceZ "2030-01-01T00:00:00Z")
      = some ⟨dtOrd 2030 1 1 0 0 0 0, true⟩ ∧
    exClock.utcnow.ord < dtOrd 2030 1 1 0 0 0 0 ∧
    (create_announcement exDB exClock "Maintenance" "2030-01-01T00:00:00Z" "teacher" none).1
      = .error .uncaughtTypeError ∧
    pyFromIsoformat (pyReplaceZ "2020-01-01T00:00:00Z")
      = some ⟨dtOrd 2020 1 1 0 0 0 0, true⟩ ∧
    dtOrd 2020 1 1 0 0 0 0 ≤ exClock.utcnow.ord ∧
    (create_announcement exDB exClock "Maintenance" "2020-01-01T00:00:00Z" "teacher" none).1
      = .error .uncaughtTypeError :=
  ⟨rfl, by decide, by decide, rfl, by decide, by decide⟩

/-- C6: a create or update that ends in any error leaves the store exactly as
it was, and an unparsable expiration (resp. truthy start) date is reported as
the corresponding InvalidFormat error before any write. -/
theorem failed_writes_leave_store (db : DB) (clock : Clock) (id msg exp user : String)
    (sd : Option String) :
    (∀ e db', create_announcement db clock msg exp user sd = (.error e, db') → db' = db) ∧
    (∀ e db', update_announcement db clock id msg exp user sd = (.error e, db') → db' = db) ∧
    (user ∈ db.teachers → pyFromIsoformat (pyReplaceZ exp) = none →
      (create_announcement db clock msg exp user sd).1 = .error .invalidExpirationFormat ∧
      (∀ oid rec, objectIdOfString id = some oid → findAnn db.announcements oid = some rec →
        (update_announcement db clock id msg exp user sd).1
          = .error .invalidExpirationFormat)) ∧
    (user ∈ db.teachers → ∀ dt, pyFromIsoformat (pyReplaceZ exp) = some dt →
      dt.aware = false → clock.utcnow.ord < dt.ord → ∀ s, sd = some s → s ≠ "" →
      pyFromIsoformat (pyReplaceZ s) = none →
      (create_announcement db clock msg exp user sd).1 = .error .invalidStartFormat) ∧
    (user ∈ db.teachers → ∀ oid rec, objectIdOfString id = some oid →
      findAnn db.announcements oid = some rec →
      ∀ dt, pyFromIsoformat (pyReplaceZ exp) = some dt →
      dt.aware = false → clock.utcnow.ord < dt.ord → ∀ s, sd = some s → s ≠ "" →
      pyFromIsoformat (pyReplaceZ s) = none →
      (update_announcement db clock id msg exp user sd).1 = .error .invalidStartFormat) := by
  refine ⟨fun e db' h => create_error_state _ _ _ _ _ _ _ _ h,
          fun e db' h => update_error_state _ _ _ _ _ _ _ _ _ h, ?_, ?_, ?_⟩
  · intro hauth hbad
    constructor
    · simp [create_announcement, hauth, hbad]
    · intro oid rec hoid hrec
      simp [update_announcement, hauth, hoid, hrec, hbad]
  · intro hauth dt hdt hnaw hlt s hs hsne hsbad
    subst hs
    have htr : pyTruthy (some s) = true := by simp [pyTruthy, hsne]
    simp [create_announcement, hauth, hdt, hnaw, htr, hsbad, Nat.not_le.mpr hlt]
  · intro hauth oid rec hoid hrec dt hdt hnaw hlt s hs hsne hsbad
    subst hs
    have htr : pyTruthy (some s) = true := by simp [pyTruthy, hsne]
    simp [update_announcement, hauth, hoid, hrec, hdt, hnaw, htr, hsbad,
      Nat.not_le.mpr hlt]

theorem failed_writes_leave_store_witness :
    exDB = exDB ∧
    (create_announcement exDB exClock "m" "not-a-date" "teacher" none).1
      = .error .invalidExpirationFormat ∧
    (update_announcement exDB exClock "000000000000000000000000" "m" "not-a-date"
      "teacher" none).1 = .error .invalidExpirationFormat ∧
    (create_announcement exDB exClock "m" "2030-06-01T00:00:00" "teacher" (some "bad")).1
      = .error .invalidStartFormat ∧
    (update_announcement exDB exClock "000000000000000000000000" "m" "2030-06-01T00:00:00"
      "teacher" (some "bad")).1 = .error .invalidStartFormat :=
  have h := failed_writes_leave_store exDB exClock "000000000000000000000000" "m"
    "not-a-date" "teacher" none
  have h2 := failed_writes_leave_store exDB exClock "000000000000000000000000" "m"
    "2030-06-01T00:00:00" "teacher" (some "bad")
  ⟨h.1 .invalidExpirationFormat exDB (by decide),
   (h.2.2.1 (by decide) (by decide)).1,
   (h.2.2.1 (by decide) (by decide)).2 0 exAnn (by decide) (by decide),
   h2.2.2.2.1 (by decide) ⟨dtOrd 2030 6 1 0 0 0 0, false⟩ (by decide) rfl (by decide)
     "bad" rfl (by decide) (by decide),
   h2.2.2.2.2 (by decide) 0 exAnn (by decide) (by decide)
     ⟨dtOrd 2030 6 1 0 0 0 0, false⟩ (by decide) rfl (by decide)
     "bad" rfl (by decide) (by decide)⟩



/-- C4: a validated update replaces `message` and `expiration_date`, sets
`start_date` when a (non-empty) value is provided and removes it otherwise,
and leaves `id`, `created_by` and `created_at` untouched; the directory and
the id counter are unchanged. -/
theorem update_success_fields (db : DB) (clock : Clock) (id msg exp user : String)
    (sd : Option String) (out : AnnouncementOut) (db' : DB)
    (h : update_announcement db clock id msg exp user sd = (.ok out, db')) :
    ∃ oid old, objectIdOfString id = some oid ∧
      findAnn db.announcements oid = some old ∧
      findAnn db'.announcements oid = some
        { id := old.id, message := msg, expiration_date := exp,
          start_date := if pyTruthy sd then sd else none,
          created_by := old.created_by, created_at := old.created_at } ∧
      out = render
        { id := old.id, message := msg, expiration_date := exp,
          start_date := if pyTruthy sd then sd else none,
          created_by := old.created_by, created_at := old.created_at } ∧
      db'.teachers = db.teachers ∧ db'.nextId = db.nextId := by
  obtain ⟨oid, old, hoid, hold, ht, hn, hfind, hout⟩ :=
    update_ok_inv _ _ _ _ _ _ _ _ _ h
  exact ⟨oid, old, hoid, hold, hfind, hout, ht, hn⟩

theorem update_success_fields_witness :
    ∃ oid old, objectIdOfString "000000000000000000000000" = some oid ∧
      findAnn exDB.announcements oid = some old ∧
      findAnn (DB.mk [⟨0, "m2", "2030-06-01T00:00:00", none, "teacher", "2025-06-01T00:00:00Z"⟩,
          exAnn2] ["teacher"] 2).announcements oid = some
        { id := old.id, message := "m2", expiration_date := "2030-06-01T00:00:00",
          start_date := if pyTruthy none then none else none,
          created_by := old.created_by, created_at := old.created_at } ∧
      render ⟨0, "m2", "2030-06-01T00:00:00", none, "teacher", "2025-06-01T00:00:00Z"⟩ = render
        { id := old.id, message := "m2", expiration_date := "2030-06-01T00:00:00",
          start_date := if pyTruthy none then none else none,
          created_by := old.created_by, created_at := old.created_at } ∧
      (DB.mk [⟨0, "m2", "2030-06-01T00:00:00", none, "teacher", "2025-06-01T00:00:00Z"⟩,
          exAnn2] ["teacher"] 2).teachers = exDB.teachers ∧
      (DB.mk [⟨0, "m2", "2030-06-01T00:00:00", none, "teacher", "2025-06-01T00:00:00Z"⟩,
          exAnn2] ["teacher"] 2).nextId = exDB.nextId :=
  update_success_fields exDB exClock "000000000000000000000000" "m2" "2030-06-01T00:00:00"
    "teacher" none
    (render ⟨0, "m2", "2030-06-01T00:00:00", none, "teacher", "2025-06-01T00:00:00Z"⟩)
    (DB.mk [⟨0, "m2", "2030-06-01T00:00:00", none, "teacher", "2025-06-01T00:00:00Z"⟩,
      exAnn2] ["teacher"] 2)
    (by decide)



/-- C7: authorized delete fails with InvalidId on a malformed id (store
untouched), with NotFound when the well-formed id removes nothing (store
untouched), and otherwise removes the first matching record and returns the
confirmation message. -/
theorem delete_behavior (db : DB) (id user : String) (hauth : user ∈ db.teachers) :
    (objectIdOfString id = none →
      delete_announcement db id user = (.error .invalidAnnouncementId, db)) ∧
    (∀ oid, objectIdOfString id = some oid → findAnn db.announcements oid = none →
      delete_announcement db id user = (.error .announcementNotFound, db)) ∧
    (∀ oid r, objectIdOfString id = some oid → findAnn db.announcements oid = some r →
      ∃ l1 l2, db.announcements = l1 ++ r :: l2 ∧ (∀ x ∈ l1, x.id ≠ oid) ∧ r.id = oid ∧
        delete_announcement db id user =
          (.ok "Announcement deleted successfully", ⟨l1 ++ l2, db.teachers, db.nextId⟩)) := by
  refine ⟨?_, ?_, ?_⟩
  · intro hnone
    simp [delete_announcement, hauth, hnone]
  · intro oid hoid hfind
    have hd := deleteFirst_of_find_none _ _ hfind
    simp [delete_announcement, hauth, hoid, hd]
  · intro oid r hoid hfind
    obtain ⟨l1, l2, he, hnm, hr, hd⟩ := deleteFirst_of_find_some _ _ _ hfind
    exact ⟨l1, l2, he, hnm, hr, by simp [delete_announcement, hauth, hoid, hd]⟩

theorem delete_behavior_witness :
    delete_announcement exDB "xyz" "teacher" = (.error .invalidAnnouncementId, exDB) ∧
    delete_announcement exDB "00000000000000000000000f" "teacher"
      = (.error .announcementNotFound, exDB) ∧
    (∃ l1 l2, exDB.announcements = l1 ++ exAnn :: l2 ∧ (∀ x ∈ l1, x.id ≠ 0) ∧ exAnn.id = 0 ∧
      delete_announcement exDB "000000000000000000000000" "teacher"
        = (.ok "Announcement deleted successfully", ⟨l1 ++ l2, exDB.teachers, exDB.nextId⟩)) :=
  ⟨(delete_behavior exDB "xyz" "teacher" (by decide)).1 (by decide),
   (delete_behavior exDB "00000000000000000000000f" "teacher" (by decide)).2.1 15
     (by decide) (by decide),
   (delete_behavior exDB "000000000000000000000000" "teacher" (by decide)).2.2 0 exAnn
     (by decide) (by decide)⟩

/-- C9: after a successful create, an authorized list-all contains the
created record: same message and expiration string, created by the creator,
with the newly assigned store id rendered as a string. -/
theorem create_roundtrip_list_all (db : DB) (clock : Clock) (msg exp user : String)
    (sd : Option String) (out : AnnouncementOut) (db' : DB) (user2 : String)
    (hcreate : create_announcement db clock msg exp user sd = (.ok out, db'))
    (hauth2 : user2 ∈ db'.teachers) :
    ∃ l, get_all_announcements db' user2 = .ok l ∧ out ∈ l ∧
      out.message = msg ∧ out.expiration_date = exp ∧
      out.id = objectIdRender db.nextId ∧ out.created_by = user := by
  obtain ⟨hout, hanns, hteach, hnext⟩ := create_ok_inv _ _ _ _ _ _ _ _ hcreate
  have hga : get_all_announcements db' user2
      = .ok ((List.insertionSort createdAtDesc db'.announcements).map render) := by
    simp [get_all_announcements, hauth2]
  refine ⟨_, hga, ?_, ?_, ?_, ?_, ?_⟩
  · simp only [List.mem_map, List.mem_insertionSort]
    refine ⟨⟨db.nextId, msg, exp, if pyTruthy sd then sd else none, user, clock.currentTime⟩,
      ?_, hout.symm⟩
    simp [hanns]
  · rw [hout]; rfl
  · rw [hout]; rfl
  · rw [hout]; rfl
  · rw [hout]; rfl

theorem create_roundtrip_list_all_witness :
    ∃ l, get_all_announcements
        (DB.mk [exAnn, exAnn2,
          ⟨2, "M", "2030-06-01T00:00:00", none, "teacher", "2026-10-12T09:30:00Z"⟩]
          ["teacher"] 3) "teacher" = .ok l ∧
      render ⟨2, "M", "2030-06-01T00:00:00", none, "teacher", "2026-10-12T09:30:00Z"⟩ ∈ l ∧
      (render ⟨2, "M", "2030-06-01T00:00:00", none, "teacher",
        "2026-10-12T09:30:00Z"⟩).message = "M" ∧
      (render ⟨2, "M", "2030-06-01T00:00:00", none, "teacher",
        "2026-10-12T09:30:00Z"⟩).expiration_date = "2030-06-01T00:00:00" ∧
      (render ⟨2, "M", "2030-06-01T00:00:00", none, "teacher",
        "2026-10-12T09:30:00Z"⟩).id = objectIdRender exDB.nextId ∧
      (render ⟨2, "M", "2030-06-01T00:00:00", none, "teacher",
        "2026-10-12T09:30:00Z"⟩).created_by = "teacher" :=
  create_roundtrip_list_all exDB exClock "M" "2030-06-01T00:00:00" "teacher" none
    (render ⟨2, "M", "2030-06-01T00:00:00", none, "teacher", "2026-10-12T09:30:00Z"⟩)
    (DB.mk [exAnn, exAnn2,
      ⟨2, "M", "2030-06-01T00:00:00", none, "teacher", "2026-10-12T09:30:00Z"⟩]
      ["teacher"] 3) "teacher" (by decide) (by decide)

/-- C10: an empty-string `start_date` is treated exactly as an absent one:
create and update coincide with the corresponding `None` calls, and a
successful update with the empty string leaves no `start_date` on the
record. -/
theorem empty_start_date_is_absent (db : DB) (clock : Clock) (id msg exp user : String) :
    create_announcement db clock msg exp user (some "")
      = create_announcement db clock msg exp user none ∧
    update_announcement db clock id msg exp user (some "")
      = update_announcement db clock id msg exp user none ∧
    (∀ out db' oid, update_announcement db clock id msg exp user (some "") = (.ok out, db') →
      objectIdOfString id = some oid →
      ∃ old, findAnn db.announcements oid = some old ∧
        findAnn db'.announcements oid = some
          ⟨old.id, msg, exp, none, old.created_by, old.created_at⟩) := by
  refine ⟨rfl, rfl, ?_⟩
  intro out db' oid h hoid
  obtain ⟨oid', old, hoid', hold, _, _, hfind, _⟩ := update_ok_inv _ _ _ _ _ _ _ _ _ h
  have hoe : oid' = oid := by rw [hoid'] at hoid; exact Option.some.inj hoid
  subst hoe
  exact ⟨old, hold, by simpa using hfind⟩

theorem empty_start_date_is_absent_witness :
    create_announcement exDB exClock "m" "2030-06-01T00:00:00" "teacher" (some "")
      = create_announcement exDB exClock "m" "2030-06-01T00:00:00" "teacher" none ∧
    ∃ old, findAnn exDB.announcements 0 = some old ∧
      findAnn (DB.mk [⟨0, "m2", "2030-06-01T00:00:00", none, "teacher",
          "2025-06-01T00:00:00Z"⟩, exAnn2] ["teacher"] 2).announcements 0 = some
        ⟨old.id, "m2", "2030-06-01T00:00:00", none, old.created_by, old.created_at⟩ :=
  ⟨(empty_start_date_is_absent exDB exClock "000000000000000000000000" "m"
      "2030-06-01T00:00:00" "teacher").1,
   (empty_start_date_is_absent exDB exClock "000000000000000000000000" "m2"
      "2030-06-01T00:00:00" "teacher").2.2
     (render ⟨0, "m2", "2030-06-01T00:00:00", none, "teacher", "2025-06-01T00:00:00Z"⟩)
     (DB.mk [⟨0, "m2", "2030-06-01T00:00:00", none, "teacher", "2025-06-01T00:00:00Z"⟩,
       exAnn2] ["teacher"] 2) 0 (by decide) (by decide)⟩

end Announcements
